import Mathlib

/-!
Shallow embedding of the Laboratorio8 products API
(`src/index.js`, `src/unnamed/part_000` APIKeyGenerator,
`src/unnamed/part_001` ErrorWeb, `src/unnamed/part_002` persistence
variant of the endpoints, `src/unnamed/part_003` endpoints,
`src/unnamed/part_005` JWTGenerator).

JavaScript runtime values that flow through the handlers are modelled by
`JSValue` (strings, numbers, booleans, null, undefined); JS numbers are
modelled as `JSNum` — NaN, the two infinities, or an exact rational
(floating-point rounding is not modelled; every literal in the program is
exactly representable as a rational, and no arithmetic on stored numbers
occurs beyond the pagination index computation, which is integral).
-/

namespace Lab8

/-- A JavaScript number: NaN, +Infinity, -Infinity, or a finite value
(modelled as an exact rational). -/
inductive JSNum where
  | nan
  | inf
  | ninf
  | rat (q : ℚ)
deriving DecidableEq

/-- A JavaScript value as it occurs in JSON request bodies and in the
in-memory records: string, number, boolean, null, or undefined
(`undef` is the value read from an absent object key). -/
inductive JSValue where
  | str (s : String)
  | num (n : JSNum)
  | bool (b : Bool)
  | null
  | undef
deriving DecidableEq

/-- JS truthiness: falsy values are the empty string, 0, NaN, false,
null and undefined; everything else (in our fragment) is truthy. -/
def truthy : JSValue → Bool
  | .str s => !(s = "")
  | .num .nan => false
  | .num (.rat q) => !(q = 0)
  | .num .inf => true
  | .num .ninf => true
  | .bool b => b
  | .null => false
  | .undef => false

/-- Strict equality (`===`) on JS numbers: NaN is equal to nothing
(itself included); the infinities and finite values compare by value. -/
def JSNum.eqNum : JSNum → JSNum → Bool
  | .nan, _ => false
  | .inf, .inf => true
  | .ninf, .ninf => true
  | .rat a, .rat b => a = b
  | _, _ => false

/-- Strict equality (`===`) on JS values: no coercion, values of
different types are never equal; numbers compare with `JSNum.eqNum`. -/
def jsEq : JSValue → JSValue → Bool
  | .str a, .str b => a = b
  | .num a, .num b => a.eqNum b
  | .bool a, .bool b => a = b
  | .null, .null => true
  | .undef, .undef => true
  | _, _ => false

/-- ASCII whitespace, the relevant fragment of the whitespace JS string
coercions strip. -/
def isSpace (c : Char) : Bool :=
  c = ' ' || c = '\t' || c = '\n' || c = '\r'

/-- Strip leading and trailing whitespace from a character list. -/
def trimChars (l : List Char) : List Char :=
  ((l.dropWhile isSpace).reverse.dropWhile isSpace).reverse

/-- Value of a list of decimal digits, as a natural number
(callers check `Char.isDigit` on every character first). -/
def digitsVal (l : List Char) : ℕ :=
  l.foldl (fun n c => n * 10 + (c.toNat - 48)) 0

/-- Split a character list at every dot. -/
def splitDot : List Char → List (List Char)
  | [] => [[]]
  | c :: rest =>
    if c = '.' then [] :: splitDot rest
    else
      match splitDot rest with
      | [] => [[c]]
      | h :: t => (c :: h) :: t

/-- `Number(s)` on a string: the decimal fragment of JS ToNumber.
Covers the forms the program can meet in a JSON body: the empty /
whitespace-only string is 0; optional sign, integer digits, optional
fractional digits ("12", "12.", ".5", "19.99"); the Infinity literals.
Exponent and non-decimal radix forms (irrelevant here) map to NaN. -/
def strToNum (s : String) : JSNum :=
  let t := trimChars s.toList
  if t = [] then .rat 0
  else if t = "Infinity".toList then .inf
  else if t = "+Infinity".toList then .inf
  else if t = "-Infinity".toList then .ninf
  else
    let sign : ℚ := match t with
      | c :: _ => if c = '-' then -1 else 1
      | [] => 1
    let body := match t with
      | c :: r => if c = '-' || c = '+' then r else t
      | [] => t
    match splitDot body with
    | [i] =>
      if !(i = []) && i.all Char.isDigit then
        .rat (sign * (digitsVal i : ℚ))
      else .nan
    | [i, f] =>
      if (!(i = []) || !(f = [])) && i.all Char.isDigit && f.all Char.isDigit then
        .rat (sign * ((digitsVal i : ℚ) + (digitsVal f : ℚ) / (10 : ℚ) ^ f.length))
      else .nan
    | _ => .nan

/-- `Number(v)`: numeric coercion of a JS value.  Numbers are unchanged,
true is 1 and false is 0, null is 0, undefined is NaN, strings go
through `strToNum`. -/
def toNum : JSValue → JSNum
  | .str s => strToNum s
  | .num n => n
  | .bool b => if b then .rat 1 else .rat 0
  | .null => .rat 0
  | .undef => .nan

/-- `n > 0` on a JS number (false for NaN, true for Infinity). -/
def JSNum.gtZero : JSNum → Bool
  | .rat q => 0 < q
  | .inf => true
  | _ => false

/-- `Number.isInteger(n)`: true exactly for finite integral values. -/
def JSNum.isInteger : JSNum → Bool
  | .rat q => q.den = 1
  | _ => false

/-- `n >= 0` on a JS number (false for NaN). -/
def JSNum.nonneg : JSNum → Bool
  | .rat q => 0 ≤ q
  | .inf => true
  | _ => false

/-- The five product fields of a JS object, as read by `validateProduct`
(property access on a key the object lacks yields `undef`).  The handlers
only ever pass objects here, so the code path for a non-object body
(`!payload || typeof payload !== 'object'`) is unreachable and not
modelled. -/
structure Obj where
  name : JSValue
  sku : JSValue
  price : JSValue
  stock : JSValue
  category : JSValue
deriving DecidableEq

/-- A JSON request body for the product endpoints: each field is either
present with a `JSValue` or absent (`none`).  JSON cannot encode
`undefined`, so absence is the only way a field can be missing. -/
structure Body where
  name : Option JSValue := none
  sku : Option JSValue := none
  price : Option JSValue := none
  stock : Option JSValue := none
  category : Option JSValue := none
deriving DecidableEq

/-- Reading the five fields off a request body object: an absent key
reads as `undefined`. -/
def bodyToObj (b : Body) : Obj :=
  { name := b.name.getD .undef
    sku := b.sku.getD .undef
    price := b.price.getD .undef
    stock := b.stock.getD .undef
    category := b.category.getD .undef }

/-- `validateProduct` (src/unnamed/part_003 lines 178-188, identical in
src/index.js and part_002): collects the violated field names, in source
order — `name`, `sku`, `price`, `stock`, `category` — without stopping
at the first failure. -/
def validateProduct (o : Obj) : List String :=
  (if !truthy o.name then ["name"] else []) ++
  (if !truthy o.sku then ["sku"] else []) ++
  (if !(toNum o.price).gtZero then ["price"] else []) ++
  (if !((toNum o.stock).isInteger && (toNum o.stock).nonneg) then ["stock"] else []) ++
  (if !truthy o.category then ["category"] else [])

/-- A stored product record.  `name`, `sku` and `category` are stored
exactly as they arrived in the payload (so they are JS values), while
`price` and `stock` are stored through `Number(...)` and hence are JS
numbers. -/
structure Product where
  id : String
  name : JSValue
  sku : JSValue
  price : JSNum
  stock : JSNum
  category : JSValue
deriving DecidableEq

/-- `ErrorWeb` (src/unnamed/part_001): an error carrying a message and
an HTTP status code (the optional `details` object is always left at its
default by the code modelled here). -/
structure ErrorWeb where
  message : String
  statusCode : ℕ
deriving DecidableEq

/-- Outcome of the POST /products handler. -/
inductive CreateResult where
  | validationError (fields : List String)
  | conflict
  | created (p : Product)
deriving DecidableEq

/-- POST /products handler body (src/unnamed/part_003 lines 131-139,
identical in src/index.js; the in-memory part of part_002 lines 149-172):
validate, then reject a duplicate `sku` with Conflict, else build the
entity with `Number`-coerced price and stock, a fresh id, and append.
Returns the response outcome and the products array afterwards. -/
def createProduct (products : List Product) (newId : String) (b : Body) :
    CreateResult × List Product :=
  let o := bodyToObj b
  let errors := validateProduct o
  if !(errors = []) then (.validationError errors, products)
  else if products.any (fun p => jsEq p.sku o.sku) then (.conflict, products)
  else
    let entity : Product :=
      { id := newId, name := o.name, sku := o.sku,
        price := toNum o.price, stock := toNum o.stock, category := o.category }
    (.created entity, products ++ [entity])

/-- Outcome of the PUT /products/:id handler. -/
inductive UpdateResult where
  | notFound
  | validationError (fields : List String)
  | conflict
  | updated (p : Product)
deriving DecidableEq

/-- The merged object `{...products[idx], ...req.body}` restricted to
the five validated fields: a field present in the body wins, otherwise
the stored record's value is read (numbers as number values). -/
def mergeObj (old : Product) (b : Body) : Obj :=
  { name := b.name.getD old.name
    sku := b.sku.getD old.sku
    price := b.price.getD (.num old.price)
    stock := b.stock.getD (.num old.stock)
    category := b.category.getD old.category }

/-- PUT /products/:id handler body (src/unnamed/part_003 lines 142-155,
in-memory part of part_002 lines 175-202): locate the record, merge the
body over it, re-validate the merged object, reject a changed `sku` that
collides with any record, then store the merged record in place, keeping
the original `id` and `Number`-coercing price and stock. -/
def updateProduct (products : List Product) (reqId : String) (b : Body) :
    UpdateResult × List Product :=
  match products.findIdx? (fun p => p.id = reqId) with
  | none => (.notFound, products)
  | some idx =>
    match products.get? idx with
    | none => (.notFound, products)
    | some old =>
      let merged := mergeObj old b
      let errors := validateProduct merged
      if !(errors = []) then (.validationError errors, products)
      else if (match b.sku with
               | some s => truthy s && !jsEq s old.sku
                   && products.any (fun p => jsEq p.sku s)
               | none => false) then (.conflict, products)
      else
        let newP : Product :=
          { id := old.id, name := merged.name, sku := merged.sku,
            price := toNum merged.price, stock := toNum merged.stock,
            category := merged.category }
        (.updated newP, products.set idx newP)

/-- Outcome of the DELETE /products/:id handler. -/
inductive DeleteResult where
  | notFound
  | deleted
deriving DecidableEq

/-- DELETE /products/:id handler body (src/unnamed/part_003 lines
158-163, in-memory part of part_002 lines 205-217): locate the record by
id and splice it out, else 404. -/
def deleteProduct (products : List Product) (reqId : String) :
    DeleteResult × List Product :=
  match products.findIdx? (fun p => p.id = reqId) with
  | none => (.notFound, products)
  | some idx => (.deleted, products.eraseIdx idx)

/-- `parseInt(s, 10)`: trim, optional sign, then the longest prefix of
decimal digits; `none` models NaN (no digits at all). -/
def parseIntJS (s : String) : Option ℤ :=
  let t := trimChars s.toList
  let sign : ℤ := match t with
    | c :: _ => if c = '-' then -1 else 1
    | [] => 1
  let rest := match t with
    | c :: r => if c = '-' || c = '+' then r else t
    | [] => t
  let ds := rest.takeWhile Char.isDigit
  if ds = [] then none
  else some (sign * (digitsVal ds : ℤ))

/-- `req.query.x || d`: an absent or empty query parameter falls back to
the default string. -/
def queryOr (q : Option String) (d : String) : String :=
  match q with
  | none => d
  | some s => if s = "" then d else s

/-- `Math.max(1, n)` where `n` may be NaN (`none`): NaN propagates. -/
def jsMaxOne : Option ℤ → Option ℤ
  | none => none
  | some n => some (max 1 n)

/-- Index conversion of `Array.prototype.slice`: NaN becomes 0, a
negative index counts from the end, and the result is clamped to the
array length. -/
def sliceIdx (len : ℕ) : Option ℤ → ℕ
  | none => 0
  | some i => if i < 0 then (max ((len : ℤ) + i) 0).toNat else min i.toNat len

/-- `arr.slice(start, stop)` with possibly-NaN bounds. -/
def jsSlice (l : List Product) (start stop : Option ℤ) : List Product :=
  (l.take (sliceIdx l.length stop)).drop (sliceIdx l.length start)

/-- The response of GET /products: the page of items plus the meta
fields; `page` and `limit` are `none` when the computed JS value is NaN
(which JSON-serializes as null). -/
structure ListResult where
  items : List Product
  page : Option ℤ
  lim : Option ℤ
  total : ℕ
deriving DecidableEq

/-- GET /products handler (src/unnamed/part_003 lines 115-121, identical
in src/index.js and part_002): page and limit come from the query string
through `parseInt` and `Math.max(1, ...)`, the offset is
`(page-1)*limit`, the items are `products.slice(offset, offset+limit)`,
and `total` is the full length of the store. -/
def listProducts (products : List Product) (pageQ limitQ : Option String) :
    ListResult :=
  let page := jsMaxOne (parseIntJS (queryOr pageQ "1"))
  let lim := jsMaxOne (parseIntJS (queryOr limitQ "10"))
  let offset : Option ℤ :=
    match page, lim with
    | some p, some l => some ((p - 1) * l)
    | _, _ => none
  let stop : Option ℤ :=
    match offset, lim with
    | some o, some l => some (o + l)
    | _, _ => none
  { items := jsSlice products offset stop
    page := page
    lim := lim
    total := products.length }

/-- The claims payload signed into a session token by the login handler:
`{ sub: user.id, role: user.role, username: user.username }`. -/
structure Claims where
  sub : String
  role : String
  username : String
deriving DecidableEq

/-- Modelled from the spec: tokens of the external jsonwebtoken library
(not part of this repository).  A token is either well formed — carrying
its claims, issued-at and expiry instants, issuer, and the secret its
signature was produced with (`sigSecret`; a token whose signature bytes
were altered, or that was signed by another party, is one whose
`sigSecret` differs from the verifier's secret) — or malformed. -/
inductive Token where
  | signed (claims : Claims) (iat exp : ℕ) (issuer : String) (sigSecret : String)
  | malformed (raw : String)
deriving DecidableEq

/-- The reasons the underlying jwt.verify can reject a token. -/
inductive JwtError where
  | badSignature
  | malformedToken
  | expired
deriving DecidableEq

/-- Modelled from the spec: `jwt.sign(payload, secret, {expiresIn})` of
the external jsonwebtoken library — a well-formed token signed with
`secret`, expiring `expiresIn` after `now`. -/
def jwtSign (secret : String) (c : Claims) (now expiresIn : ℕ)
    (issuer : String) : Token :=
  .signed c now (now + expiresIn) issuer secret

/-- Modelled from the spec: `jwt.verify(token, secret)` — fails when the
token is malformed, its signature does not verify under `secret`, or the
current time is past the encoded expiry; otherwise returns the claims. -/
def jwtVerify (secret : String) (now : ℕ) : Token → Except JwtError Claims
  | .malformed _ => .error .malformedToken
  | .signed c _ e _ sig =>
    if !(sig = secret) then .error .badSignature
    else if e < now then .error .expired
    else .ok c

/-- `JWTGenerator.generateToken` (src/unnamed/part_005 lines 10-16):
signs the payload with the instance secret; the login handler passes
`expiresIn` from the environment and the default issuer applies. -/
def generateToken (secret : String) (c : Claims) (now expiresIn : ℕ) : Token :=
  jwtSign secret c now expiresIn "laboratorio8-api"

/-- `JWTGenerator.verifyToken` (src/unnamed/part_005 lines 18-24): wraps
jwt.verify and converts every failure, whatever its reason, into the one
`ErrorWeb` with status 401. -/
def verifyToken (secret : String) (now : ℕ) (t : Token) :
    Except ErrorWeb Claims :=
  match jwtVerify secret now t with
  | .ok c => .ok c
  | .error _ => .error ⟨"Token inválido o expirado", 401⟩

/-- `JWTGenerator.decodeToken` (src/unnamed/part_005 lines 26-28):
non-verifying decode. -/
def decodeToken : Token → Option Claims
  | .signed c _ _ _ _ => some c
  | .malformed _ => none

/-- A stored user record (src/index.js lines 72-75). -/
structure User where
  id : String
  username : String
  password : String
  role : String
deriving DecidableEq

/-- Outcome of the POST /auth/login handler (after the API-key gate). -/
inductive LoginResult where
  | badRequest
  | unauthorized
  | okToken (t : Token)
deriving DecidableEq

/-- The predicate of the login handler's user lookup:
`u.username === username && u.password === password`. -/
def credMatch (username password : JSValue) (u : User) : Bool :=
  jsEq (.str u.username) username && jsEq (.str u.password) password

/-- POST /auth/login handler body (src/unnamed/part_003 lines 95-111,
identical in src/index.js lines 96-112), reached only when the API-key
gate passed: missing username or password is 400; credentials are
matched against the user list with strict equality; a match signs a
token with the user's id, role and username. -/
def login (users : List User) (username password : JSValue)
    (secret : String) (now expiresIn : ℕ) : LoginResult :=
  if !truthy username || !truthy password then .badRequest
  else
    match users.find? (credMatch username password) with
    | none => .unauthorized
    | some u =>
      .okToken (generateToken secret ⟨u.id, u.role, u.username⟩ now expiresIn)

/-- The demo user table (src/index.js lines 72-75). -/
def users : List User :=
  [⟨"u1", "alice", "alice123", "admin"⟩,
   ⟨"u2", "bob", "bob123", "editor"⟩]

/-- Outcome of the full POST /auth/login route, API-key gate included. -/
inductive LoginRouteOutcome where
  | gateError (e : ErrorWeb)
  | handled (r : LoginResult)
deriving DecidableEq

/-- `APIKeyGenerator.validateAPIKey` (src/unnamed/part_000 lines 13-18):
strict equality against the generated key, else `ErrorWeb` 403.  The
header value is `none` when the header is absent. -/
def validateAPIKey (apiKey : String) (key : Option String) :
    Except ErrorWeb Unit :=
  if key = some apiKey then .ok ()
  else .error ⟨"API Key inválida", 403⟩

/-- POST /auth/login route with its API-key gate
(`app.post('/auth/login', requireApiKey, handler)`): a failing gate
short-circuits to the error responder, else the login handler runs. -/
def runLoginRoute (apiKey : String) (keyHeader : Option String)
    (us : List User) (username password : JSValue) (secret : String)
    (now expiresIn : ℕ) : LoginRouteOutcome :=
  match validateAPIKey apiKey keyHeader with
  | .error e => .gateError e
  | .ok _ => .handled (login us username password secret now expiresIn)

/-- The Authorization header of a request, with the bearer token (when
the header parses as `Bearer <token>`) already in token form; a bearer
header whose token part is empty behaves as `missing`. -/
inductive AuthHeader where
  | missing
  | notBearer (s : String)
  | bearer (t : Token)

/-- `authJWT` middleware (src/unnamed/part_003 lines 50-58, identical in
src/index.js and part_002): no bearer token is 401 "Falta token";
otherwise the token goes through `verifyToken` and the decoded claims
are attached to the request. -/
def authJWT (secret : String) (now : ℕ) : AuthHeader → Except ErrorWeb Claims
  | .missing => .error ⟨"Falta token", 401⟩
  | .notBearer _ => .error ⟨"Falta token", 401⟩
  | .bearer t => verifyToken secret now t

/-- `roleCheck(...roles)` middleware (src/unnamed/part_003 lines 60-65,
identical in src/index.js and part_002): fails with 403 unless claims
are attached and their role is in the allow-list; `none` means pass. -/
def roleCheck (roles : List String) (user : Option Claims) :
    Option ErrorWeb :=
  match user with
  | none => some ⟨"Permisos insuficientes", 403⟩
  | some c =>
    if roles.contains c.role then none
    else some ⟨"Permisos insuficientes", 403⟩

/-- Outcome of a full DELETE /products/:id request. -/
inductive DeleteRouteOutcome where
  | gateError (e : ErrorWeb)
  | notFound
  | noContent
deriving DecidableEq

/-- The full DELETE /products/:id route
(`app.delete('/products/:id', authJWT, roleCheck('admin'), handler)`,
src/unnamed/part_003 lines 158-163): the two gates run in order, the
first failure short-circuits to the error responder and the handler
never runs; only when both pass does the delete handler touch the
store. -/
def runDeleteRoute (secret : String) (now : ℕ) (h : AuthHeader)
    (reqId : String) (products : List Product) :
    DeleteRouteOutcome × List Product :=
  match authJWT secret now h with
  | .error e => (.gateError e, products)
  | .ok claims =>
    match roleCheck ["admin"] (some claims) with
    | some e => (.gateError e, products)
    | none =>
      match deleteProduct products reqId with
      | (.notFound, ps) => (.notFound, ps)
      | (.deleted, ps) => (.noContent, ps)

/-- Modelled from the spec: the flat-file store write
(`fs.writeFile` inside `saveToJSON`, src/unnamed/part_002 lines 75-84)
is an external effect; its outcome is a parameter — `none` for success,
`some msg` for a failure with message `msg`.  `saveToJSON` turns a
failure into an `ErrorWeb` 500 with the prefixed message. -/
def saveToJSON (fsError : Option String) : Except ErrorWeb Unit :=
  match fsError with
  | none => .ok ()
  | some m => .error ⟨"Error guardando datos: " ++ m, 500⟩

/-- Outcome of a part_002 mutation endpoint, including the persistence
step. -/
inductive P2Result where
  | validationError (fields : List String)
  | conflict
  | notFound
  | persistenceError (e : ErrorWeb)
  | createdOk (p : Product)
  | updatedOk (p : Product)
  | deletedOk
deriving DecidableEq

/-- POST /products of the persistence variant (src/unnamed/part_002
lines 149-172): same in-memory logic as `createProduct`, then
`await saveProducts()`; a save failure propagates as the thrown
`ErrorWeb` (500) while the pushed entity stays in the array. -/
def createProductP2 (products : List Product) (newId : String) (b : Body)
    (fsError : Option String) : P2Result × List Product :=
  match createProduct products newId b with
  | (.validationError fs, ps) => (.validationError fs, ps)
  | (.conflict, ps) => (.conflict, ps)
  | (.created p, ps) =>
    match saveToJSON fsError with
    | .ok _ => (.createdOk p, ps)
    | .error e => (.persistenceError e, ps)

/-- PUT /products/:id of the persistence variant (src/unnamed/part_002
lines 175-202): same in-memory logic as `updateProduct`, then the save;
a save failure propagates as the thrown `ErrorWeb` (500) while the
merged record stays in the array. -/
def updateProductP2 (products : List Product) (reqId : String) (b : Body)
    (fsError : Option String) : P2Result × List Product :=
  match updateProduct products reqId b with
  | (.notFound, ps) => (.notFound, ps)
  | (.validationError fs, ps) => (.validationError fs, ps)
  | (.conflict, ps) => (.conflict, ps)
  | (.updated p, ps) =>
    match saveToJSON fsError with
    | .ok _ => (.updatedOk p, ps)
    | .error e => (.persistenceError e, ps)

/-- DELETE /products/:id of the persistence variant
(src/unnamed/part_002 lines 205-217): same in-memory logic as
`deleteProduct`, then the save; a save failure propagates as the thrown
`ErrorWeb` (500) while the record stays removed from the array. -/
def deleteProductP2 (products : List Product) (reqId : String)
    (fsError : Option String) : P2Result × List Product :=
  match deleteProduct products reqId with
  | (.notFound, ps) => (.notFound, ps)
  | (.deleted, ps) =>
    match saveToJSON fsError with
    | .ok _ => (.deletedOk, ps)
    | .error e => (.persistenceError e, ps)

/-- The invariant of §3 of the spec: no two products in the store share
a `sku` (no two positions hold strictly-equal sku values). -/
def SkuDistinct (ps : List Product) : Prop :=
  ps.Pairwise (fun a b => jsEq a.sku b.sku = false)

/-- The demo product seeded at startup (src/index.js lines 77-79; its id
is a runtime uuid, fixed here to a placeholder). -/
def seedProduct : Product :=
  ⟨"p1", .str "Laptop X", .str "SKU-0001", .rat (mkRat 99999 100), .rat 5,
   .str "computers"⟩

/-- A create payload whose sku collides with `seedProduct` but whose
name is invalid (empty). -/
def badNameDupSkuBody : Body :=
  { name := some (.str "")
    sku := some (.str "SKU-0001")
    price := some (.num (.rat 1))
    stock := some (.num (.rat 0))
    category := some (.str "c") }

/-- A payload with a non-positive price and a negative stock (all other
fields valid). -/
def badPriceStockBody : Body :=
  { name := some (.str "Thing")
    sku := some (.str "SKU-0009")
    price := some (.num (.rat 0))
    stock := some (.num (.rat (-1)))
    category := some (.str "misc") }

/-- A fully valid create payload whose sku collides with
`seedProduct`. -/
def dupValidBody : Body :=
  { name := some (.str "Laptop Y")
    sku := some (.str "SKU-0001")
    price := some (.num (.rat 100))
    stock := some (.num (.rat 3))
    category := some (.str "computers") }

/-- The §8 scenario payload, with a numeric-string price and a boolean
stock. -/
def mouseBody : Body :=
  { name := some (.str "Mouse")
    sku := some (.str "SKU-0002")
    price := some (.str "19.99")
    stock := some (.bool true)
    category := some (.str "peripherals") }

/-- The record the create handler builds from `mouseBody`. -/
def mouseEntity : Product :=
  ⟨"id2", .str "Mouse", .str "SKU-0002", .rat (mkRat 1999 100), .rat 1,
   .str "peripherals"⟩

/-- A valid create payload with plain numeric fields. -/
def plainBody : Body :=
  { name := some (.str "Keyboard")
    sku := some (.str "SKU-0003")
    price := some (.num (.rat 20))
    stock := some (.num (.rat 10))
    category := some (.str "peripherals") }

/-- The record the create handler builds from `plainBody`. -/
def plainEntity : Product :=
  ⟨"id2", .str "Keyboard", .str "SKU-0003", .rat 20, .rat 10,
   .str "peripherals"⟩

/-- A partial update payload touching only the price. -/
def priceOnlyBody : Body :=
  { price := some (.num (.rat 5)) }

/-- `seedProduct` after the `priceOnlyBody` update: only the price
changed. -/
def updatedSeed : Product :=
  ⟨"p1", .str "Laptop X", .str "SKU-0001", .rat 5, .rat 5,
   .str "computers"⟩

/-- A session token for bob (role editor) signed with the secret
"sek". -/
def editorToken : Token :=
  .signed ⟨"u2", "editor", "bob"⟩ 0 7200 "laboratorio8-api" "sek"

/-! ## Helper lemmas -/

theorem eqNum_symm (a b : JSNum) : a.eqNum b = b.eqNum a := by
  cases a <;> cases b <;> simp [JSNum.eqNum, eq_comm]

theorem eqNum_trans {a b c : JSNum} (h1 : a.eqNum b = true)
    (h2 : b.eqNum c = true) : a.eqNum c = true := by
  cases a <;> cases b <;> cases c <;> simp_all [JSNum.eqNum]

theorem jsEq_symm (a b : JSValue) : jsEq a b = jsEq b a := by
  cases a <;> cases b <;> simp [jsEq, eq_comm, eqNum_symm]

theorem jsEq_trans {a b c : JSValue} (h1 : jsEq a b = true)
    (h2 : jsEq b c = true) : jsEq a c = true := by
  cases a <;> cases b <;> cases c <;> simp_all [jsEq]
  exact eqNum_trans h1 h2

theorem mem_validate_name (o : Obj) :
    "name" ∈ validateProduct o ↔ truthy o.name = false := by
  unfold validateProduct
  split_ifs with h1 h2 h3 h4 h5 <;> simp_all

theorem mem_validate_sku (o : Obj) :
    "sku" ∈ validateProduct o ↔ truthy o.sku = false := by
  unfold validateProduct
  split_ifs with h1 h2 h3 h4 h5 <;> simp_all

theorem mem_validate_price (o : Obj) :
    "price" ∈ validateProduct o ↔ (toNum o.price).gtZero = false := by
  unfold validateProduct
  split_ifs with h1 h2 h3 h4 h5 <;> simp_all

theorem mem_validate_stock (o : Obj) :
    "stock" ∈ validateProduct o ↔
      ((toNum o.stock).isInteger = false ∨ (toNum o.stock).nonneg = false) := by
  unfold validateProduct
  split_ifs with h1 h2 h3 h4 h5 <;> simp_all

theorem mem_validate_category (o : Obj) :
    "category" ∈ validateProduct o ↔ truthy o.category = false := by
  unfold validateProduct
  split_ifs with h1 h2 h3 h4 h5 <;> simp_all

theorem validate_eq_nil (o : Obj) :
    validateProduct o = [] ↔
      (truthy o.name = true ∧ truthy o.sku = true ∧
       (toNum o.price).gtZero = true ∧
       (toNum o.stock).isInteger = true ∧ (toNum o.stock).nonneg = true ∧
       truthy o.category = true) := by
  unfold validateProduct
  split_ifs with h1 h2 h3 h4 h5 <;> simp_all; (intro h6; simp_all)

theorem any_sku_false {products : List Product} {v : JSValue}
    (h : products.any (fun p => jsEq p.sku v) = false) :
    ∀ p ∈ products, jsEq p.sku v = false := by
  intro p hp
  rw [List.any_eq_false] at h
  simpa using h p hp

/-! ## Claims -/

/-- C1, counterexample: a create payload whose `sku` equals the stored
product's `sku` but whose `name` is empty is answered with the
ValidationError (422), not with Conflict (409) — the handler validates
before it checks the sku collision.  The first conjunct shows the sku
really collides. -/
theorem c1_counterexample :
    jsEq (bodyToObj badNameDupSkuBody).sku seedProduct.sku = true ∧
    (createProduct [seedProduct] "id2" badNameDupSkuBody).1 =
      .validationError ["name"] ∧
    (createProduct [seedProduct] "id2" badNameDupSkuBody).1 ≠ .conflict := by
  refine ⟨by decide, by decide, by decide⟩

/-- C1, amended: for a create payload that passes validation, a `sku`
equal to some stored record's `sku` is always answered with Conflict and
the store is unchanged, regardless of the other (necessarily valid)
field values. -/
theorem c1_duplicate_sku_conflict (products : List Product) (newId : String)
    (b : Body) (hval : validateProduct (bodyToObj b) = [])
    (hdup : products.any (fun p => jsEq p.sku (bodyToObj b).sku) = true) :
    createProduct products newId b = (.conflict, products) := by
  unfold createProduct
  simp [hval, hdup]

theorem c1_duplicate_sku_conflict_witness :
    validateProduct (bodyToObj dupValidBody) = [] ∧
    ([seedProduct].any (fun p => jsEq p.sku (bodyToObj dupValidBody).sku)) = true ∧
    createProduct [seedProduct] "id2" dupValidBody = (.conflict, [seedProduct]) :=
  ⟨by decide, by decide,
   c1_duplicate_sku_conflict [seedProduct] "id2" dupValidBody (by decide) (by decide)⟩

theorem createProduct_sku_distinct (products : List Product) (newId : String)
    (b : Body) (h : SkuDistinct products) :
    SkuDistinct (createProduct products newId b).2 := by
  unfold createProduct
  by_cases hval : validateProduct (bodyToObj b) = []
  · by_cases hdup : products.any (fun p => jsEq p.sku (bodyToObj b).sku) = true
    · simpa [hval, hdup] using h
    · rw [Bool.not_eq_true] at hdup
      simp only [hval, hdup, decide_True, Bool.not_true, Bool.false_eq_true, if_false]
      rw [SkuDistinct, List.pairwise_append]
      refine ⟨h, List.pairwise_singleton _ _, ?_⟩
      intro a ha e he
      simp only [List.mem_singleton] at he
      subst he
      exact any_sku_false hdup a ha
  · simpa [hval] using h

theorem set_sku_distinct {products : List Product} {idx : ℕ} {newP : Product}
    (h : SkuDistinct products)
    (hkey : ∀ k, ∀ hk : k < products.length, k ≠ idx →
      jsEq (products.get ⟨k, hk⟩).sku newP.sku = false) :
    SkuDistinct (products.set idx newP) := by
  rw [SkuDistinct, List.pairwise_iff_getElem]
  intro i j hi hj hij
  rw [List.length_set] at hi hj
  rw [List.getElem_set, List.getElem_set]
  by_cases hi2 : idx = i
  · subst hi2
    rw [if_pos rfl, if_neg (by omega)]
    rw [jsEq_symm]
    exact hkey j hj (by omega)
  · rw [if_neg hi2]
    by_cases hj2 : idx = j
    · subst hj2
      rw [if_pos rfl]
      exact hkey i hi (by omega)
    · rw [if_neg hj2]
      exact (List.pairwise_iff_getElem.mp h) i j hi hj hij

theorem updateProduct_sku_distinct (products : List Product) (reqId : String)
    (bu : Body) (h : SkuDistinct products) :
    SkuDistinct (updateProduct products reqId bu).2 := by
  unfold updateProduct
  cases hidx : products.findIdx? (fun p => p.id = reqId) with
  | none => simpa using h
  | some idx =>
    cases hget : products[idx]? with
    | none => simp [List.get?_eq_getElem?, hget]; exact h
    | some old =>
      simp only [List.get?_eq_getElem?, hget]
      by_cases hval : validateProduct (mergeObj old bu) = []
      · by_cases hconf : (match bu.sku with
            | some s => truthy s && !jsEq s old.sku
                && products.any (fun p => jsEq p.sku s)
            | none => false) = true
        · simpa [hval, hconf] using h
        · rw [Bool.not_eq_true] at hconf
          simp only [hval, hconf, decide_True, Bool.not_true, Bool.false_eq_true, if_false]
          obtain ⟨hlen, holdeq⟩ := List.getElem?_eq_some.mp hget
          have hO : truthy (mergeObj old bu).sku = true :=
            ((validate_eq_nil _).mp hval).2.1
          have hPW := List.pairwise_iff_getElem.mp h
          refine set_sku_distinct h ?_
          intro k hk hkneq
          show jsEq (products.get ⟨k, hk⟩).sku (mergeObj old bu).sku = false
          cases hbs : bu.sku with
          | none =>
            have hms : (mergeObj old bu).sku = old.sku := by simp [mergeObj, hbs]
            rw [hms]
            rcases lt_or_gt_of_ne hkneq with hlt | hgt
            · have h2 := hPW k idx hk hlen hlt
              rw [holdeq] at h2
              simpa using h2
            · have h2 := hPW idx k hlen hk hgt
              rw [holdeq] at h2
              rw [jsEq_symm] at h2
              simpa using h2
          | some s =>
            have hms : (mergeObj old bu).sku = s := by simp [mergeObj, hbs]
            rw [hms] at hO ⊢
            rw [hbs] at hconf
            simp only [hO, Bool.true_and, Bool.and_eq_false_iff,
              Bool.not_eq_false] at hconf
            rcases hconf with hcase | hcase
            · by_contra hne
              rw [Bool.not_eq_false] at hne
              rw [Bool.not_eq_false'] at hcase
              have h2 : jsEq (products.get ⟨k, hk⟩).sku old.sku = true :=
                jsEq_trans hne hcase
              rcases lt_or_gt_of_ne hkneq with hlt | hgt
              · have h3 := hPW k idx hk hlen hlt
                rw [holdeq] at h3
                simp only [List.get_eq_getElem] at h2
                rw [h3] at h2
                exact Bool.false_ne_true h2
              · have h3 := hPW idx k hlen hk hgt
                rw [holdeq, jsEq_symm] at h3
                simp only [List.get_eq_getElem] at h2
                rw [h3] at h2
                exact Bool.false_ne_true h2
            · exact any_sku_false hcase _ (List.get_mem products k hk)
      · simpa [hval] using h

theorem deleteProduct_sku_distinct (products : List Product) (reqId : String)
    (h : SkuDistinct products) :
    SkuDistinct (deleteProduct products reqId).2 := by
  unfold deleteProduct
  cases hidx : products.findIdx? (fun p => p.id = reqId) with
  | none => simpa using h
  | some idx =>
    simpa using List.Pairwise.sublist (List.eraseIdx_sublist products idx) h

/-- C2: from any store whose products have pairwise distinct sku values
(no two positions strictly-equal), each of the three mutating operations
— create, update, delete — leaves a store in which no two products share
a sku. -/
theorem c2_sku_invariant_preserved (products : List Product)
    (newId reqIdU reqIdD : String) (bc bu : Body)
    (h : SkuDistinct products) :
    SkuDistinct (createProduct products newId bc).2 ∧
    SkuDistinct (updateProduct products reqIdU bu).2 ∧
    SkuDistinct (deleteProduct products reqIdD).2 :=
  ⟨createProduct_sku_distinct products newId bc h,
   updateProduct_sku_distinct products reqIdU bu h,
   deleteProduct_sku_distinct products reqIdD h⟩

theorem c2_sku_invariant_preserved_witness :
    SkuDistinct [seedProduct] ∧
    SkuDistinct (createProduct [seedProduct] "id2" mouseBody).2 ∧
    SkuDistinct (updateProduct [seedProduct] "p1" priceOnlyBody).2 ∧
    SkuDistinct (deleteProduct [seedProduct] "p1").2 :=
  have hd : SkuDistinct [seedProduct] := List.pairwise_singleton _ _
  ⟨hd,
   (c2_sku_invariant_preserved [seedProduct] "id2" "p1" "p1" mouseBody
      priceOnlyBody hd).1,
   (c2_sku_invariant_preserved [seedProduct] "id2" "p1" "p1" mouseBody
      priceOnlyBody hd).2.1,
   (c2_sku_invariant_preserved [seedProduct] "id2" "p1" "p1" mouseBody
      priceOnlyBody hd).2.2⟩


/-- C3: with the correct API key the login route reaches the handler;
there, missing username or password gives BadRequest (400); credentials
matching no stored user give Unauthorized (401) with no token; and
credentials matching a stored user give 200 with a token whose decoded
subject and role are that user's id and role. -/
theorem c3_login_correct (us : List User) (apiKey : String)
    (username password : JSValue) (secret : String) (now expiresIn : ℕ) :
    (runLoginRoute apiKey (some apiKey) us username password secret now expiresIn
        = .handled (login us username password secret now expiresIn)) ∧
    ((truthy username = false ∨ truthy password = false) →
      login us username password secret now expiresIn = .badRequest) ∧
    (truthy username = true → truthy password = true →
      us.find? (credMatch username password) = none →
      login us username password secret now expiresIn = .unauthorized) ∧
    (∀ u, truthy username = true → truthy password = true →
      us.find? (credMatch username password) = some u →
      login us username password secret now expiresIn =
        .okToken (generateToken secret ⟨u.id, u.role, u.username⟩ now expiresIn) ∧
      decodeToken (generateToken secret ⟨u.id, u.role, u.username⟩ now expiresIn) =
        some ⟨u.id, u.role, u.username⟩) := by
  refine ⟨?_, ?_, ?_, ?_⟩
  · simp [runLoginRoute, validateAPIKey]
  · intro hcase
    rcases hcase with hc | hc <;> simp [login, hc]
  · intro h1 h2 hfind
    simp [login, h1, h2, hfind]
  · intro u h1 h2 hfind
    refine ⟨by simp [login, h1, h2, hfind], rfl⟩

theorem c3_login_correct_witness :
    login users (.str "alice") (.str "alice123") "sek" 0 7200 =
      .okToken (generateToken "sek" ⟨"u1", "admin", "alice"⟩ 0 7200) ∧
    decodeToken (generateToken "sek" ⟨"u1", "admin", "alice"⟩ 0 7200) =
      some ⟨"u1", "admin", "alice"⟩ ∧
    login users (.str "alice") (.str "nope") "sek" 0 7200 = .unauthorized ∧
    login users (.str "alice") (.undef) "sek" 0 7200 = .badRequest ∧
    runLoginRoute "k1" (some "k1") users (.str "alice") (.str "alice123")
        "sek" 0 7200 =
      .handled (login users (.str "alice") (.str "alice123") "sek" 0 7200) :=
  ⟨((c3_login_correct users "k1" (.str "alice") (.str "alice123") "sek" 0
      7200).2.2.2 ⟨"u1", "alice", "alice123", "admin"⟩ (by decide) (by decide)
      (by decide)).1,
   ((c3_login_correct users "k1" (.str "alice") (.str "alice123") "sek" 0
      7200).2.2.2 ⟨"u1", "alice", "alice123", "admin"⟩ (by decide) (by decide)
      (by decide)).2,
   (c3_login_correct users "k1" (.str "alice") (.str "nope") "sek" 0
      7200).2.2.1 (by decide) (by decide) (by decide),
   (c3_login_correct users "k1" (.str "alice") (.undef) "sek" 0 7200).2.1
      (Or.inr (by decide)),
   (c3_login_correct users "k1" (.str "alice") (.str "alice123") "sek" 0
      7200).1⟩


/-- C4: in the persistence variant, when the in-memory mutation
(create, update, or delete) succeeded and the storage write then fails,
the request is answered with the PersistenceError (500) and the store
keeps exactly the mutated state the successful in-memory step produced —
no rollback. -/
theorem c4_no_rollback_on_persistence_failure (products : List Product)
    (newId reqIdU reqIdD : String) (bc bu : Body) (m : String) :
    (∀ p ps, createProduct products newId bc = (.created p, ps) →
      createProductP2 products newId bc (some m) =
        (.persistenceError ⟨"Error guardando datos: " ++ m, 500⟩, ps) ∧
      ps = products ++ [p]) ∧
    (∀ p ps, updateProduct products reqIdU bu = (.updated p, ps) →
      updateProductP2 products reqIdU bu (some m) =
        (.persistenceError ⟨"Error guardando datos: " ++ m, 500⟩, ps)) ∧
    (∀ ps, deleteProduct products reqIdD = (.deleted, ps) →
      deleteProductP2 products reqIdD (some m) =
        (.persistenceError ⟨"Error guardando datos: " ++ m, 500⟩, ps)) := by
  refine ⟨?_, ?_, ?_⟩
  · intro p ps hmut
    constructor
    · unfold createProductP2
      rw [hmut]
      rfl
    · unfold createProduct at hmut
      by_cases hval : validateProduct (bodyToObj bc) = []
      · by_cases hdup : products.any (fun q => jsEq q.sku (bodyToObj bc).sku) = true
        · simp [hval, hdup] at hmut
        · rw [Bool.not_eq_true] at hdup
          simp [hval, hdup] at hmut
          rw [hmut.2.symm, hmut.1]
      · simp [hval] at hmut
  · intro p ps hmut
    unfold updateProductP2
    rw [hmut]
    rfl
  · intro ps hmut
    unfold deleteProductP2
    rw [hmut]
    rfl

theorem c4_no_rollback_witness :
    createProduct [seedProduct] "id2" plainBody =
      (.created plainEntity, [seedProduct, plainEntity]) ∧
    createProductP2 [seedProduct] "id2" plainBody (some "disk full") =
      (.persistenceError ⟨"Error guardando datos: disk full", 500⟩,
       [seedProduct, plainEntity]) ∧
    updateProductP2 [seedProduct] "p1" priceOnlyBody (some "disk full") =
      (.persistenceError ⟨"Error guardando datos: disk full", 500⟩,
       [⟨"p1", .str "Laptop X", .str "SKU-0001", .rat 5, .rat 5,
         .str "computers"⟩]) ∧
    deleteProductP2 [seedProduct] "p1" (some "disk full") =
      (.persistenceError ⟨"Error guardando datos: disk full", 500⟩, []) :=
  ⟨by decide,
   ((c4_no_rollback_on_persistence_failure [seedProduct] "id2" "p1" "p1"
      plainBody priceOnlyBody "disk full").1 plainEntity
      [seedProduct, plainEntity] (by decide)).1,
   (c4_no_rollback_on_persistence_failure [seedProduct] "id2" "p1" "p1"
      plainBody priceOnlyBody "disk full").2.1
      ⟨"p1", .str "Laptop X", .str "SKU-0001", .rat 5, .rat 5,
       .str "computers"⟩
      [⟨"p1", .str "Laptop X", .str "SKU-0001", .rat 5, .rat 5,
        .str "computers"⟩] (by decide),
   (c4_no_rollback_on_persistence_failure [seedProduct] "id2" "p1" "p1"
      plainBody priceOnlyBody "disk full").2.2 [] (by decide)⟩


/-- C5, counterexample: a list request whose `page` query does not parse
as a number is not clamped to page 1 — `Math.max(1, NaN)` is NaN, so the
echoed page is NaN (null in JSON) and the items list is empty even
though the store holds one record (whose first page under any clamped
page of at least 1 and the default limit 10 would be the record
itself). -/
theorem c5_counterexample :
    (listProducts [seedProduct] (some "x") none).page = none ∧
    (listProducts [seedProduct] (some "x") none).items = [] ∧
    (listProducts [seedProduct] (some "x") none).total = 1 := by
  refine ⟨by decide, by decide, by decide⟩

theorem drop_take_clamp (l : List Product) (o s : ℕ) :
    (l.take (min s l.length)).drop (min o l.length) = (l.take s).drop o := by
  have h1 : l.take (min s l.length) = l.take s := by
    rw [List.take_eq_take]
    simp [Nat.min_assoc]
  rw [h1]
  rcases le_or_lt o l.length with ho | ho
  · rw [Nat.min_eq_left ho]
  · rw [Nat.min_eq_right ho.le]
    rw [List.drop_eq_nil_of_le, List.drop_eq_nil_of_le]
    · rw [List.length_take]
      exact le_trans (Nat.min_le_right s l.length) ho.le
    · rw [List.length_take]
      exact Nat.min_le_right s l.length

/-- C5, amended: when the `page` and `limit` query values parse as
integers (the default strings "1" and "10" apply when absent or empty),
both are clamped to a minimum of 1, the items are the sub-sequence of
the store in insertion order starting at offset `(page-1)*limit` of
length at most `limit`, `total` is the full record count, and an
out-of-range page yields an empty items list rather than an error.  A
non-numeric query value instead makes the offset NaN, which slices to an
empty list (see the counterexample). -/
theorem c5_list_pagination (products : List Product)
    (pageQ limitQ : Option String) (p l : ℤ)
    (hp : parseIntJS (queryOr pageQ "1") = some p)
    (hl : parseIntJS (queryOr limitQ "10") = some l) :
    (listProducts products pageQ limitQ).page = some (max 1 p) ∧
    (listProducts products pageQ limitQ).lim = some (max 1 l) ∧
    (listProducts products pageQ limitQ).total = products.length ∧
    (listProducts products pageQ limitQ).items =
      (products.take ((max 1 p - 1) * max 1 l + max 1 l).toNat).drop
        (((max 1 p - 1) * max 1 l).toNat) ∧
    (listProducts products pageQ limitQ).items.length ≤ (max 1 l).toNat ∧
    ((products.length : ℤ) ≤ (max 1 p - 1) * max 1 l →
      (listProducts products pageQ limitQ).items = []) := by
  have hp1 : (1 : ℤ) ≤ max 1 p := le_max_left 1 p
  have hl1 : (1 : ℤ) ≤ max 1 l := le_max_left 1 l
  have hon : (0 : ℤ) ≤ (max 1 p - 1) * max 1 l :=
    mul_nonneg (by omega) (by omega)
  have hsn : (0 : ℤ) ≤ (max 1 p - 1) * max 1 l + max 1 l := by omega
  have hitems : (listProducts products pageQ limitQ).items =
      (products.take ((max 1 p - 1) * max 1 l + max 1 l).toNat).drop
        (((max 1 p - 1) * max 1 l).toNat) := by
    unfold listProducts jsSlice sliceIdx
    simp only [hp, hl, jsMaxOne]
    rw [if_neg (by omega), if_neg (by omega)]
    exact drop_take_clamp products _ _
  refine ⟨?_, ?_, ?_, hitems, ?_, ?_⟩
  · unfold listProducts
    simp [hp, hl, jsMaxOne]
  · unfold listProducts
    simp [hp, hl, jsMaxOne]
  · unfold listProducts
    rfl
  · rw [hitems, List.length_drop, List.length_take]
    omega
  · intro hout
    rw [hitems]
    apply List.drop_eq_nil_of_le
    rw [List.length_take]
    omega

theorem c5_list_pagination_witness :
    parseIntJS (queryOr (some "2") "1") = some 2 ∧
    parseIntJS (queryOr none "10") = some 10 ∧
    (listProducts [seedProduct] (some "2") none).page = some 2 ∧
    (listProducts [seedProduct] (some "2") none).total = 1 ∧
    (listProducts [seedProduct] (some "2") none).items = [] := by
  have h := c5_list_pagination [seedProduct] (some "2") none 2 10
    (by decide) (by decide)
  refine ⟨by decide, by decide, ?_, h.2.2.1, ?_⟩
  · simpa using h.1
  · exact h.2.2.2.2.2 (by norm_num)


/-- C6: a successful partial update of an existing product keeps the
original id, keeps the old value of every field absent from the payload,
gives each present field the payload's value (price and stock through
the handler's `Number(...)` coercion, the identity on numbers), and
leaves every other position of the store unchanged. -/
theorem c6_update_partial_merge (products : List Product) (reqId : String)
    (b : Body) (idx : ℕ) (old newP : Product) (ps2 : List Product)
    (hidx : products.findIdx? (fun p => p.id = reqId) = some idx)
    (hold : products[idx]? = some old)
    (hupd : updateProduct products reqId b = (.updated newP, ps2)) :
    newP.id = old.id ∧
    newP.name = b.name.getD old.name ∧
    newP.sku = b.sku.getD old.sku ∧
    newP.category = b.category.getD old.category ∧
    newP.price = toNum (b.price.getD (.num old.price)) ∧
    newP.stock = toNum (b.stock.getD (.num old.stock)) ∧
    (b.name = none → newP.name = old.name) ∧
    (b.sku = none → newP.sku = old.sku) ∧
    (b.category = none → newP.category = old.category) ∧
    (b.price = none → newP.price = old.price) ∧
    (b.stock = none → newP.stock = old.stock) ∧
    ps2 = products.set idx newP ∧
    (∀ j, j ≠ idx → ps2[j]? = products[j]?) := by
  unfold updateProduct at hupd
  rw [hidx] at hupd
  simp only [List.get?_eq_getElem?, hold] at hupd
  by_cases hval : validateProduct (mergeObj old b) = []
  · by_cases hconf : (match b.sku with
        | some s => truthy s && !jsEq s old.sku
            && products.any (fun p => jsEq p.sku s)
        | none => false) = true
    · simp [hval, hconf] at hupd
    · rw [Bool.not_eq_true] at hconf
      simp only [hval, hconf, decide_True, Bool.not_true, Bool.false_eq_true,
        if_false, if_true, Prod.mk.injEq, UpdateResult.updated.injEq] at hupd
      obtain ⟨hnew, hps⟩ := hupd
      subst hnew
      subst hps
      refine ⟨rfl, by simp [mergeObj], by simp [mergeObj], by simp [mergeObj],
        by simp [mergeObj], by simp [mergeObj], ?_, ?_, ?_, ?_, ?_, rfl, ?_⟩
      · intro hn; simp [mergeObj, hn]
      · intro hn; simp [mergeObj, hn]
      · intro hn; simp [mergeObj, hn]
      · intro hn; simp [mergeObj, hn, toNum]
      · intro hn; simp [mergeObj, hn, toNum]
      · intro j hj
        exact List.getElem?_set_ne (fun he => hj he.symm)
  · simp [hval] at hupd

theorem c6_update_partial_merge_witness :
    updateProduct [seedProduct] "p1" priceOnlyBody =
      (.updated updatedSeed, [updatedSeed]) ∧
    updatedSeed.id = seedProduct.id ∧
    updatedSeed.name = seedProduct.name ∧
    updatedSeed.price = .rat 5 ∧
    updatedSeed.stock = seedProduct.stock := by
  obtain ⟨h1, h2, h3, h4, h5, h6, h7, h8, h9, h10, h11, h12, h13⟩ :=
    c6_update_partial_merge [seedProduct] "p1" priceOnlyBody 0 seedProduct
      updatedSeed [updatedSeed] (by decide) (by decide) (by decide)
  exact ⟨by decide, h1, h7 rfl, by decide, h11 rfl⟩


theorem create_validation_fails {products : List Product} {newId : String}
    {b : Body} (hne : validateProduct (bodyToObj b) ≠ []) :
    createProduct products newId b =
      (.validationError (validateProduct (bodyToObj b)), products) := by
  unfold createProduct
  simp [hne]

theorem update_validation_fails {products : List Product} {reqId : String}
    {b : Body} {idx : ℕ} {old : Product}
    (hidx : products.findIdx? (fun p => p.id = reqId) = some idx)
    (hold : products[idx]? = some old)
    (hne : validateProduct (mergeObj old b) ≠ []) :
    updateProduct products reqId b =
      (.validationError (validateProduct (mergeObj old b)), products) := by
  unfold updateProduct
  rw [hidx]
  simp only [List.get?_eq_getElem?, hold]
  simp [hne]

/-- C7: validation checks all five rules and reports every violated
field together — each field name is in the returned details exactly when
its rule is violated — and a create or update payload with a
non-positive (or non-numeric) price or a non-integer or negative stock
always fails with the ValidationError listing those fields, the store
untouched. -/
theorem c7_validation_collects_all (o : Obj) (products : List Product)
    (newId reqId : String) (b : Body) :
    ("name" ∈ validateProduct o ↔ truthy o.name = false) ∧
    ("sku" ∈ validateProduct o ↔ truthy o.sku = false) ∧
    ("price" ∈ validateProduct o ↔ (toNum o.price).gtZero = false) ∧
    ("stock" ∈ validateProduct o ↔
      ((toNum o.stock).isInteger = false ∨ (toNum o.stock).nonneg = false)) ∧
    ("category" ∈ validateProduct o ↔ truthy o.category = false) ∧
    (∀ v, b.price = some v → (toNum v).gtZero = false →
      createProduct products newId b =
        (.validationError (validateProduct (bodyToObj b)), products) ∧
      "price" ∈ validateProduct (bodyToObj b)) ∧
    (∀ v, b.stock = some v →
      ((toNum v).isInteger = false ∨ (toNum v).nonneg = false) →
      createProduct products newId b =
        (.validationError (validateProduct (bodyToObj b)), products) ∧
      "stock" ∈ validateProduct (bodyToObj b)) ∧
    (∀ idx old v, products.findIdx? (fun p => p.id = reqId) = some idx →
      products[idx]? = some old → b.price = some v →
      (toNum v).gtZero = false →
      updateProduct products reqId b =
        (.validationError (validateProduct (mergeObj old b)), products) ∧
      "price" ∈ validateProduct (mergeObj old b)) ∧
    (∀ idx old v, products.findIdx? (fun p => p.id = reqId) = some idx →
      products[idx]? = some old → b.stock = some v →
      ((toNum v).isInteger = false ∨ (toNum v).nonneg = false) →
      updateProduct products reqId b =
        (.validationError (validateProduct (mergeObj old b)), products) ∧
      "stock" ∈ validateProduct (mergeObj old b)) := by
  refine ⟨mem_validate_name o, mem_validate_sku o, mem_validate_price o,
    mem_validate_stock o, mem_validate_category o, ?_, ?_, ?_, ?_⟩
  · intro v hb hv
    have hpm : "price" ∈ validateProduct (bodyToObj b) := by
      apply (mem_validate_price (bodyToObj b)).mpr
      have : (bodyToObj b).price = v := by simp [bodyToObj, hb]
      rw [this, hv]
    exact ⟨create_validation_fails (List.ne_nil_of_mem hpm), hpm⟩
  · intro v hb hv
    have hsm : "stock" ∈ validateProduct (bodyToObj b) := by
      apply (mem_validate_stock (bodyToObj b)).mpr
      have : (bodyToObj b).stock = v := by simp [bodyToObj, hb]
      rw [this]
      exact hv
    exact ⟨create_validation_fails (List.ne_nil_of_mem hsm), hsm⟩
  · intro idx old v hidx hold hb hv
    have hpm : "price" ∈ validateProduct (mergeObj old b) := by
      apply (mem_validate_price (mergeObj old b)).mpr
      have : (mergeObj old b).price = v := by simp [mergeObj, hb]
      rw [this, hv]
    exact ⟨update_validation_fails hidx hold (List.ne_nil_of_mem hpm), hpm⟩
  · intro idx old v hidx hold hb hv
    have hsm : "stock" ∈ validateProduct (mergeObj old b) := by
      apply (mem_validate_stock (mergeObj old b)).mpr
      have : (mergeObj old b).stock = v := by simp [mergeObj, hb]
      rw [this]
      exact hv
    exact ⟨update_validation_fails hidx hold (List.ne_nil_of_mem hsm), hsm⟩

theorem c7_validation_collects_all_witness :
    validateProduct (bodyToObj badPriceStockBody) = ["price", "stock"] ∧
    createProduct [seedProduct] "id2" badPriceStockBody =
      (.validationError (validateProduct (bodyToObj badPriceStockBody)),
       [seedProduct]) ∧
    "price" ∈ validateProduct (bodyToObj badPriceStockBody) ∧
    "stock" ∈ validateProduct (bodyToObj badPriceStockBody) := by
  obtain ⟨h1, h2⟩ := (c7_validation_collects_all (bodyToObj badPriceStockBody)
    [seedProduct] "id2" "p1" badPriceStockBody).2.2.2.2.2.1
    (.num (.rat 0)) rfl (by decide)
  obtain ⟨h3, h4⟩ := (c7_validation_collects_all (bodyToObj badPriceStockBody)
    [seedProduct] "id2" "p1" badPriceStockBody).2.2.2.2.2.2.1
    (.num (.rat (-1))) rfl (by decide)
  exact ⟨by decide, h1, h2, h4⟩


/-- C8: for every token and time, `verifyToken` either returns the
decoded claims or fails with the single 401 "Token inválido o expirado"
error; it fails exactly when the token is malformed, the signature does
not verify under the process secret, or the time is past the encoded
expiry; a token verified at or before its expiry with an unmodified
signature succeeds with its claims. -/
theorem c8_verify_error_taxonomy (secret : String) (now : ℕ) (t : Token) :
    (∀ e, verifyToken secret now t = .error e →
      e = ⟨"Token inválido o expirado", 401⟩) ∧
    ((∃ e, verifyToken secret now t = .error e) ↔
      (match t with
       | .malformed _ => True
       | .signed _ _ e2 _ sig => sig ≠ secret ∨ e2 < now)) ∧
    (∀ c iat e2 iss, t = .signed c iat e2 iss secret → now ≤ e2 →
      verifyToken secret now t = .ok c) ∧
    ((∃ c, verifyToken secret now t = .ok c) ∨
      verifyToken secret now t = .error ⟨"Token inválido o expirado", 401⟩) := by
  cases t with
  | malformed r =>
    refine ⟨?_, ?_, ?_, ?_⟩
    · intro e he
      simp [verifyToken, jwtVerify] at he
      exact he.symm
    · simp [verifyToken, jwtVerify]
    · intro c iat e2 iss hh
      exact absurd hh (by simp)
    · right
      rfl
  | signed c iat e2 iss sig =>
    by_cases hsig : sig = secret
    · subst hsig
      by_cases hexp : e2 < now
      · refine ⟨?_, ?_, ?_, ?_⟩
        · intro e he
          simp [verifyToken, jwtVerify, hexp] at he
          exact he.symm
        · simp [verifyToken, jwtVerify, hexp]
        · intro c2 iat2 e3 iss2 hh hle
          injection hh with h1 h2 h3 h4 h5
          omega
        · right
          simp [verifyToken, jwtVerify, hexp]
      · refine ⟨?_, ?_, ?_, ?_⟩
        · intro e he
          simp [verifyToken, jwtVerify, hexp] at he
        · simp [verifyToken, jwtVerify, hexp]
        · intro c2 iat2 e3 iss2 hh hle
          injection hh with h1 h2 h3 h4 h5
          subst h1
          simp [verifyToken, jwtVerify, hexp]
        · left
          exact ⟨c, by simp [verifyToken, jwtVerify, hexp]⟩
    · refine ⟨?_, ?_, ?_, ?_⟩
      · intro e he
        simp [verifyToken, jwtVerify, hsig] at he
        exact he.symm
      · simp [verifyToken, jwtVerify, hsig]
      · intro c2 iat2 e3 iss2 hh hle
        injection hh with h1 h2 h3 h4 h5
        exact absurd h5 hsig
      · right
        simp [verifyToken, jwtVerify, hsig]

theorem c8_verify_error_taxonomy_witness :
    verifyToken "sek" 100
      (.signed ⟨"u1", "admin", "alice"⟩ 0 7200 "laboratorio8-api" "sek") =
      .ok ⟨"u1", "admin", "alice"⟩ ∧
    verifyToken "sek" 9999
      (.signed ⟨"u1", "admin", "alice"⟩ 0 7200 "laboratorio8-api" "sek") =
      .error ⟨"Token inválido o expirado", 401⟩ ∧
    verifyToken "sek" 100
      (.signed ⟨"u1", "admin", "alice"⟩ 0 7200 "laboratorio8-api" "bad") =
      .error ⟨"Token inválido o expirado", 401⟩ ∧
    verifyToken "sek" 100 (.malformed "zz") =
      .error ⟨"Token inválido o expirado", 401⟩ :=
  ⟨(c8_verify_error_taxonomy "sek" 100
      (.signed ⟨"u1", "admin", "alice"⟩ 0 7200 "laboratorio8-api" "sek")).2.2.1
      ⟨"u1", "admin", "alice"⟩ 0 7200 "laboratorio8-api" rfl (by norm_num),
   rfl, rfl, rfl⟩

/-- C9: on the DELETE /products/:id route the gates run in configured
order — a failing `authJWT` answers with its own error and the handler
never runs (store unchanged), a passing `authJWT` with a failing role
gate answers with the role gate's error and the store is unchanged — and
in particular a valid unexpired token whose role is editor is answered
403 "Permisos insuficientes" with no product removed. -/
theorem c9_gates_first_failure_wins (secret : String) (now : ℕ)
    (h : AuthHeader) (reqId : String) (products : List Product) :
    (∀ e, authJWT secret now h = .error e →
      runDeleteRoute secret now h reqId products = (.gateError e, products)) ∧
    (∀ c e, authJWT secret now h = .ok c →
      roleCheck ["admin"] (some c) = some e →
      runDeleteRoute secret now h reqId products = (.gateError e, products)) ∧
    (∀ c iat e2 iss, h = .bearer (.signed c iat e2 iss secret) → now ≤ e2 →
      c.role = "editor" →
      runDeleteRoute secret now h reqId products =
        (.gateError ⟨"Permisos insuficientes", 403⟩, products)) := by
  refine ⟨?_, ?_, ?_⟩
  · intro e he
    unfold runDeleteRoute
    rw [he]
  · intro c e hok hrole
    unfold runDeleteRoute
    rw [hok]
    simp only [hrole]
  · intro c iat e2 iss hh hexp hrole
    subst hh
    have hok : authJWT secret now (.bearer (.signed c iat e2 iss secret)) =
        .ok c := by
      simp [authJWT, verifyToken, jwtVerify, Nat.not_lt.mpr hexp]
    unfold runDeleteRoute
    rw [hok]
    simp only [roleCheck, hrole]
    rfl

theorem c9_gates_first_failure_wins_witness :
    authJWT "sek" 0 (.bearer editorToken) = .ok ⟨"u2", "editor", "bob"⟩ ∧
    runDeleteRoute "sek" 0 (.bearer editorToken) "p1" [seedProduct] =
      (.gateError ⟨"Permisos insuficientes", 403⟩, [seedProduct]) ∧
    runDeleteRoute "sek" 0 .missing "p1" [seedProduct] =
      (.gateError ⟨"Falta token", 401⟩, [seedProduct]) :=
  ⟨rfl,
   (c9_gates_first_failure_wins "sek" 0 (.bearer editorToken) "p1"
      [seedProduct]).2.2 ⟨"u2", "editor", "bob"⟩ 0 7200 "laboratorio8-api"
      rfl (by norm_num) rfl,
   (c9_gates_first_failure_wins "sek" 0 .missing "p1" [seedProduct]).1
      ⟨"Falta token", 401⟩ rfl⟩


theorem trim_1999 : trimChars "19.99".toList = ['1', '9', '.', '9', '9'] := by
  decide

theorem split_1999 :
    splitDot ['1', '9', '.', '9', '9'] = [['1', '9'], ['9', '9']] := by
  decide

theorem strToNum_1999 : strToNum "19.99" = .rat (mkRat 1999 100) := by
  unfold strToNum
  rw [trim_1999]
  simp +decide [split_1999, digitsVal]
  rw [Rat.mkRat_eq_div]
  norm_num

theorem mouse_validates : validateProduct (bodyToObj mouseBody) = [] := by
  apply (validate_eq_nil _).mpr
  have hp : toNum (bodyToObj mouseBody).price = .rat (mkRat 1999 100) :=
    strToNum_1999
  refine ⟨by decide, by decide, ?_, by decide, by decide, by decide⟩
  rw [hp]
  decide

theorem mouse_created :
    createProduct [seedProduct] "id2" mouseBody =
      (.created mouseEntity, [seedProduct, mouseEntity]) := by
  unfold createProduct
  have hdup : ([seedProduct].any
      (fun p => jsEq p.sku (bodyToObj mouseBody).sku)) = false := by decide
  simp only [mouse_validates, hdup, decide_True, Bool.not_true,
    Bool.false_eq_true, if_false, Prod.mk.injEq, CreateResult.created.injEq]
  have hp : toNum (bodyToObj mouseBody).price = .rat (mkRat 1999 100) :=
    strToNum_1999
  constructor
  · show (⟨"id2", (bodyToObj mouseBody).name, (bodyToObj mouseBody).sku,
      toNum (bodyToObj mouseBody).price, toNum (bodyToObj mouseBody).stock,
      (bodyToObj mouseBody).category⟩ : Product) = mouseEntity
    rw [hp]
    decide
  · show [seedProduct] ++ [(⟨"id2", (bodyToObj mouseBody).name,
      (bodyToObj mouseBody).sku, toNum (bodyToObj mouseBody).price,
      toNum (bodyToObj mouseBody).stock,
      (bodyToObj mouseBody).category⟩ : Product)] = [seedProduct, mouseEntity]
    rw [hp]
    decide

/-- C10: every created record stores `Number(payload.price)` and
`Number(payload.stock)`; in particular the numeric string "19.99"
coerces to the rational 1999/100 and the boolean `true` to 1, the §8
mouse payload (price "19.99", stock `true`) passes validation, and its
created record stores price 19.99 and stock 1 as numbers. -/
theorem c10_create_stores_coercions (products : List Product)
    (newId : String) (b : Body) :
    (∀ p ps, createProduct products newId b = (.created p, ps) →
      p.price = toNum (bodyToObj b).price ∧
      p.stock = toNum (bodyToObj b).stock ∧
      p.id = newId ∧ ps = products ++ [p]) ∧
    strToNum "19.99" = .rat (mkRat 1999 100) ∧
    toNum (.bool true) = .rat 1 ∧
    validateProduct (bodyToObj mouseBody) = [] ∧
    createProduct [seedProduct] "id2" mouseBody =
      (.created mouseEntity, [seedProduct, mouseEntity]) ∧
    mouseEntity.price = .rat (mkRat 1999 100) ∧
    mouseEntity.stock = .rat 1 := by
  refine ⟨?_, strToNum_1999, rfl, mouse_validates, mouse_created, rfl, rfl⟩
  intro p ps hmut
  unfold createProduct at hmut
  by_cases hval : validateProduct (bodyToObj b) = []
  · by_cases hdup : products.any (fun q => jsEq q.sku (bodyToObj b).sku) = true
    · simp [hval, hdup] at hmut
    · rw [Bool.not_eq_true] at hdup
      simp [hval, hdup] at hmut
      obtain ⟨h1, h2⟩ := hmut
      subst h1
      exact ⟨rfl, rfl, rfl, h2.symm⟩
  · simp [hval] at hmut

theorem c10_create_stores_coercions_witness :
    mouseEntity.price = toNum (bodyToObj mouseBody).price ∧
    mouseEntity.stock = toNum (bodyToObj mouseBody).stock ∧
    createProduct [seedProduct] "id2" mouseBody =
      (.created mouseEntity, [seedProduct, mouseEntity]) := by
  have h := c10_create_stores_coercions [seedProduct] "id2" mouseBody
  obtain ⟨hp, hs, _, _⟩ := h.1 mouseEntity [seedProduct, mouseEntity]
    h.2.2.2.2.1
  exact ⟨hp, hs, h.2.2.2.2.1⟩

end Lab8
